import Mathlib

/-!
Verification development for the boardgametracker repository: a Flask REST
API for tracking board-game matches (players, teams, games, rulesets, maps,
matches, per-match player and team results).

The embedding below translates, from the source:
  - the relational rows and foreign-key delete rules of
    boardgametracker/models.py (including each serialize / deserialize /
    get_schema method);
  - the request handlers of boardgametracker/resources/player.py, map.py and
    match.py as pure functions from a store and a request body to a status
    code and a new store;
  - the canonical routes of boardgametracker/api.py.

Request bodies are flat JSON objects of scalars everywhere in this API, so
JSON is modelled as an association list of scalar values.  Python exceptions
that a handler raises deliberately are modelled as the status code the web
framework maps them to (UnsupportedMediaType 415, BadRequest / abort(400)
400, Conflict 409); an exception that no handler catches is modelled as
status 500 (the framework turns it into a server error).  A handler method
that falls through without an explicit return is modelled as status 200
(flask_restful turns a None return into a 200 response).

Database integers are modelled as Int.  The points columns are db.Float in
the source; no arithmetic is ever performed on them, they are only stored
and copied, so an exact carrier is faithful and Int is used.
-/

namespace BGT

/-- A scalar JSON value: every request body and serializer output in this
API is a flat object whose values are strings, numbers or null. -/
inductive JVal where
  | str (s : String)
  | num (n : Int)
  | null
deriving DecidableEq, Repr

/-- A flat JSON object, as an association list (first binding wins, as in a
Python dict, which cannot hold duplicate keys). -/
abbrev JObj := List (String × JVal)

/-- Key lookup in a JSON object (Python doc[k], success case). -/
def jGet : JObj → String → Option JVal
  | [], _ => none
  | (k, v) :: rest, key => if k = key then some v else jGet rest key

/-- Lookup of a string-valued key. -/
def jGetStr (doc : JObj) (key : String) : Option String :=
  match jGet doc key with
  | some (JVal.str s) => some s
  | _ => none

/-- Lookup of a number-valued key. -/
def jGetNum (doc : JObj) (key : String) : Option Int :=
  match jGet doc key with
  | some (JVal.num n) => some n
  | _ => none

/-- The declared type of a schema property (the only two types the
get_schema methods in models.py declare). -/
inductive JType where
  | string
  | number
deriving DecidableEq, Repr

/-- A JSON schema as the get_schema methods build it: a required list and a
properties map from field name to declared type.  The date-time format
annotation on the date field of the Match schema is not enforced by the
default jsonschema validate call, so it does not appear here. -/
structure JSchema where
  required : List String
  props : List (String × JType)

/-- Does a value satisfy a declared type?  As in jsonschema, null satisfies
neither declared type. -/
def typeOK : JVal → JType → Bool
  | JVal.str _, JType.string => true
  | JVal.num _, JType.number => true
  | _, _ => false

/-- jsonschema.validate on a flat object schema: every required key is
present, and every declared property that is present has the declared type.
Keys outside the properties map are unconstrained. -/
def validate (doc : JObj) (sc : JSchema) : Bool :=
  sc.required.all (fun k => (jGet doc k).isSome) &&
  sc.props.all (fun kt =>
    match jGet doc kt.1 with
    | some v => typeOK v kt.2
    | none => true)

/-- Python falsiness of request.json as tested by the handlers
(if not request.json): None (no parseable JSON body) or an empty object. -/
def falsyBody : Option JObj → Bool
  | none => true
  | some [] => true
  | some (_ :: _) => false

/-! ## Entity rows (models.py) -/

/-- models.py class Player: id, name (unique, not nullable). -/
structure Player where
  id : Int
  name : String
deriving DecidableEq, Repr

/-- models.py class Team: id, name (unique, not nullable). -/
structure Team where
  id : Int
  name : String
deriving DecidableEq, Repr

/-- models.py class Game: id, name (unique, not nullable). -/
structure Game where
  id : Int
  name : String
deriving DecidableEq, Repr

/-- models.py class Map: id, name (unique, not nullable), nullable game_id
with ondelete SET NULL. -/
structure Map where
  id : Int
  name : String
  game_id : Option Int
deriving DecidableEq, Repr

/-- models.py class Ruleset: id, name (not unique), nullable game_id with
ondelete SET NULL. -/
structure Ruleset where
  id : Int
  name : String
  game_id : Option Int
deriving DecidableEq, Repr

/-- models.py class Match: id, date (a DateTime, modelled as its ISO string,
which is exactly what serialize emits and deserialize parses), turns, and
nullable game_id, ruleset_id, map_id, each with ondelete SET NULL. -/
structure Match where
  id : Int
  date : String
  turns : Int
  game_id : Option Int
  ruleset_id : Option Int
  map_id : Option Int
deriving DecidableEq, Repr

/-- models.py class Player_result: id, points, match_id with ondelete
CASCADE, nullable player_id and team_id with ondelete SET NULL. -/
structure Player_result where
  id : Int
  points : Int
  match_id : Option Int
  player_id : Option Int
  team_id : Option Int
deriving DecidableEq, Repr

/-- models.py class Team_result: id, points, order, match_id with ondelete
CASCADE, nullable team_id with ondelete SET NULL. -/
structure Team_result where
  id : Int
  points : Int
  order : Int
  match_id : Option Int
  team_id : Option Int
deriving DecidableEq, Repr

/-- The relational store: one table per model class of models.py. -/
structure Store where
  players : List Player
  teams : List Team
  games : List Game
  maps : List Map
  rulesets : List Ruleset
  match_rows : List Match
  player_results : List Player_result
  team_results : List Team_result
deriving DecidableEq, Repr

/-- The next autoincrement primary key for a table. -/
def nextId (ids : List Int) : Int := ids.foldr max 0 + 1

/-! ## Schemas (the get_schema static methods of models.py) -/

/-- Player.get_schema: required name, of type string. -/
def Player.get_schema : JSchema := ⟨["name"], [("name", JType.string)]⟩

/-- Team.get_schema: required name, of type string. -/
def Team.get_schema : JSchema := ⟨["name"], [("name", JType.string)]⟩

/-- Game.get_schema: required name, of type string. -/
def Game.get_schema : JSchema := ⟨["name"], [("name", JType.string)]⟩

/-- Map.get_schema: required name, of type string. -/
def Map.get_schema : JSchema := ⟨["name"], [("name", JType.string)]⟩

/-- Ruleset.get_schema: required name, of type string. -/
def Ruleset.get_schema : JSchema := ⟨["name"], [("name", JType.string)]⟩

/-- Match.get_schema: required date and turns only; date declared string,
turns declared number.  The foreign keys game_id, ruleset_id, map_id are
not mentioned by the schema at all. -/
def Match.get_schema : JSchema :=
  ⟨["date", "turns"], [("date", JType.string), ("turns", JType.number)]⟩

/-- Player_result.get_schema: required points, of type number. -/
def Player_result.get_schema : JSchema := ⟨["points"], [("points", JType.number)]⟩

/-- Team_result.get_schema: required points; properties points and order,
both numbers. -/
def Team_result.get_schema : JSchema :=
  ⟨["points"], [("points", JType.number), ("order", JType.number)]⟩

/-! ## Serializers and deserializers (models.py) -/

/-- Render an optional foreign key the way Python json renders the column
value: the number, or null when absent. -/
def optNum : Option Int → JVal
  | some n => JVal.num n
  | none => JVal.null

/-- models.py Match.serialize (lines 176-180): emits the date, under the
key name, via date.isoformat(), and the turn count.  The method takes no
other parameter: in particular it has no long parameter and emits none of
the related names or result lists. -/
def Match.serialize (m : Match) : JObj :=
  [("name", JVal.str m.date), ("turns", JVal.num m.turns)]

/-- models.py Match.deserialize (lines 182-184): reads the keys date and
turns.  A missing key raises KeyError and a non-string date cannot be
parsed as a date, modelled as none; the stored-typed success case returns
the updated row. -/
def Match.deserialize (m : Match) (doc : JObj) : Option Match :=
  match jGet doc "date", jGet doc "turns" with
  | some (JVal.str d), some (JVal.num t) => some { m with date := d, turns := t }
  | _, _ => none

/-- models.py Player.deserialize: sets name from the key name (KeyError,
modelled as none, when absent). -/
def Player.deserialize (p : Player) (doc : JObj) : Option Player :=
  match jGet doc "name" with
  | some (JVal.str n) => some { p with name := n }
  | _ => none

/-- models.py Map.deserialize: sets name from the key name. -/
def Map.deserialize (mp : Map) (doc : JObj) : Option Map :=
  match jGet doc "name" with
  | some (JVal.str n) => some { mp with name := n }
  | _ => none

/-- models.py Player_result.serialize: points and the three foreign keys. -/
def Player_result.serialize (r : Player_result) : JObj :=
  [("points", JVal.num r.points), ("match_id", optNum r.match_id),
   ("player_id", optNum r.player_id), ("team_id", optNum r.team_id)]

/-- models.py Team_result.serialize: points and order. -/
def Team_result.serialize (r : Team_result) : JObj :=
  [("points", JVal.num r.points), ("order", JVal.num r.order)]

/-- The serialize(long=True) call that resources/match.py makes on every
match it renders: models.py Match.serialize accepts no long parameter, so
the call raises TypeError for every match; no long-mode output exists. -/
def Match.serialize_long (_m : Match) : Option JObj := none

/-! ## The date parser of the match write handlers

resources/match.py parses the incoming date with datetime.fromisoformat;
a string that does not parse raises ValueError, which neither handler
catches.  The parser is modelled as a validator over the ISO grammar the
Python parser accepts (a DDDD-DD-DD date, optionally followed by a single
separator character and a time HH, HH:MM, HH:MM:SS, or HH:MM:SS. with
exactly three or six fractional digits).  Timezone offset suffixes are not
modelled: a string outside the modelled subset is treated as unparseable,
which only narrows the success path of the handlers; every date a claim
exercises lies inside the subset.  The accepted text itself is what the
store carries, since serialize renders the stored datetime back as its
ISO text. -/

/-- Numeric value of a two-digit character group. -/
def twoDigitVal (a b : Char) : Nat := (a.toNat - 48) * 10 + (b.toNat - 48)

/-- Is a two-character group a number inside the closed range lo..hi? -/
def twoDigitsIn (a b : Char) (lo hi : Nat) : Bool :=
  a.isDigit && b.isDigit &&
    decide (lo ≤ twoDigitVal a b) && decide (twoDigitVal a b ≤ hi)

/-- The date part of an ISO string: DDDD-DD-DD with month 01..12 and day
01..31. -/
def validDateChars : List Char → Bool
  | [y1, y2, y3, y4, c1, m1, m2, c2, d1, d2] =>
    y1.isDigit && y2.isDigit && y3.isDigit && y4.isDigit &&
    c1 == '-' && c2 == '-' &&
    twoDigitsIn m1 m2 1 12 && twoDigitsIn d1 d2 1 31
  | _ => false

/-- The time part of an ISO string: HH, HH:MM, HH:MM:SS, or seconds with
exactly three or six fractional digits. -/
def validTimeChars : List Char → Bool
  | [h1, h2] => twoDigitsIn h1 h2 0 23
  | [h1, h2, c1, m1, m2] =>
    c1 == ':' && twoDigitsIn h1 h2 0 23 && twoDigitsIn m1 m2 0 59
  | [h1, h2, c1, m1, m2, c2, s1, s2] =>
    c1 == ':' && c2 == ':' && twoDigitsIn h1 h2 0 23 &&
    twoDigitsIn m1 m2 0 59 && twoDigitsIn s1 s2 0 59
  | h1 :: h2 :: c1 :: m1 :: m2 :: c2 :: s1 :: s2 :: c3 :: frac =>
    c1 == ':' && c2 == ':' && c3 == '.' && twoDigitsIn h1 h2 0 23 &&
    twoDigitsIn m1 m2 0 59 && twoDigitsIn s1 s2 0 59 &&
    (frac.length == 3 || frac.length == 6) && frac.all Char.isDigit
  | _ => false

/-- datetime.fromisoformat as the match handlers use it: none models the
ValueError of an unparseable string; on success the accepted text is
returned as the stored value. -/
def fromisoformat (s : String) : Option String :=
  let cs := s.toList
  if validDateChars (cs.take 10) then
    if cs.length = 10 then some s
    else
      match cs.drop 10 with
      | _sep :: timecs => if validTimeChars timecs then some s else none
      | [] => none
  else none

/-! ## Delete operations

The delete semantics come from the foreign-key declarations of models.py:
ondelete CASCADE on Player_result.match_id and Team_result.match_id, and
ondelete SET NULL on every reference to Game, Ruleset, Map, Player and
Team.  The item-delete handlers (for example MatchItem.delete in
resources/match.py) just call db.session.delete and commit and return 204,
so each is the corresponding store operation plus the status code. -/

/-- Delete a Match row: the row goes, and every Player_result and
Team_result row whose match_id references it goes with it (ondelete
CASCADE on both match_id columns). -/
def deleteMatch (s : Store) (mid : Int) : Store :=
  { s with
    match_rows := s.match_rows.filter (fun m => !(m.id == mid)),
    player_results := s.player_results.filter (fun r => !(r.match_id == some mid)),
    team_results := s.team_results.filter (fun r => !(r.match_id == some mid)) }

/-- Clear a Match game reference when it points at a given game. -/
def Match.clearGame (gid : Int) (m : Match) : Match :=
  if m.game_id = some gid then { m with game_id := none } else m

/-- Clear a Match ruleset reference when it points at a given ruleset. -/
def Match.clearRuleset (rid : Int) (m : Match) : Match :=
  if m.ruleset_id = some rid then { m with ruleset_id := none } else m

/-- Clear a Match map reference when it points at a given map. -/
def Match.clearMap (mpid : Int) (m : Match) : Match :=
  if m.map_id = some mpid then { m with map_id := none } else m

/-- Delete a Game row: every Map, Ruleset and Match game_id referencing it
is set to null (ondelete SET NULL); no referencing row is removed. -/
def deleteGame (s : Store) (gid : Int) : Store :=
  { s with
    games := s.games.filter (fun g => !(g.id == gid)),
    maps := s.maps.map (fun mp =>
      if mp.game_id = some gid then { mp with game_id := none } else mp),
    rulesets := s.rulesets.map (fun r =>
      if r.game_id = some gid then { r with game_id := none } else r),
    match_rows := s.match_rows.map (Match.clearGame gid) }

/-- Delete a Map row: every Match map_id referencing it is set to null. -/
def deleteMap (s : Store) (mpid : Int) : Store :=
  { s with
    maps := s.maps.filter (fun mp => !(mp.id == mpid)),
    match_rows := s.match_rows.map (Match.clearMap mpid) }

/-- Delete a Ruleset row: every Match ruleset_id referencing it is set to
null. -/
def deleteRuleset (s : Store) (rid : Int) : Store :=
  { s with
    rulesets := s.rulesets.filter (fun r => !(r.id == rid)),
    match_rows := s.match_rows.map (Match.clearRuleset rid) }

/-! ## Uniqueness checks

The unique=True column declarations in models.py; a commit that would put
two rows with the same name in one of these tables raises IntegrityError. -/

/-- Is a player name already present? -/
def playerNameTaken (s : Store) (n : String) : Bool :=
  s.players.any (fun p => p.name == n)

/-- Is a team name already present? -/
def teamNameTaken (s : Store) (n : String) : Bool :=
  s.teams.any (fun t => t.name == n)

/-- Is a game name already present? -/
def gameNameTaken (s : Store) (n : String) : Bool :=
  s.games.any (fun g => g.name == n)

/-- Is a map name already present? -/
def mapNameTaken (s : Store) (n : String) : Bool :=
  s.maps.any (fun mp => mp.name == n)

/-- Does an optional foreign key resolve (null, or a present row id)?
The test harness turns SQLite foreign-key enforcement on for every
connection (PRAGMA foreign_keys=ON in tests/resource_test.py), so a
commit writing a dangling reference raises IntegrityError. -/
def fkOk (ids : List Int) : Option Int → Bool
  | none => true
  | some i => ids.any (fun x => x == i)

/-- Do all three foreign keys of a match row resolve in the store? -/
def matchFKsOk (s : Store) (g r mp : Option Int) : Bool :=
  fkOk (s.games.map Game.id) g && fkOk (s.rulesets.map Ruleset.id) r &&
    fkOk (s.maps.map Map.id) mp

/-! ## Resource handlers

Each handler is a function from the store (and the loaded path entity,
where the route has one) and the request body to a status code and the
resulting store.  The body is an Option JObj: none models a request whose
body the framework could not parse as JSON (request.json is None) or, for
the match handlers, a request whose mimetype is not application/json. -/

/-- resources/player.py PlayerCollection.post: 415 on a falsy body, 400 on
schema violation, then insert.  A duplicate name raises IntegrityError on
commit; the except block then calls Conflict(409, description=...), but
werkzeug Conflict takes description first, so the 409 passed positionally
collides with the description keyword and the call itself raises TypeError
(Conflict is not even imported in player.py), which nothing catches: the
framework answers 500, with the store unchanged since the commit already
failed. -/
def PlayerCollection.post (s : Store) (body : Option JObj) : Nat × Store :=
  if falsyBody body then (415, s) else
  match body with
  | none => (415, s)
  | some doc =>
    if validate doc Player.get_schema then
      match jGetStr doc "name" with
      | some n =>
        if playerNameTaken s n then (500, s)
        else (201, { s with players :=
          s.players ++ [{ id := nextId (s.players.map Player.id), name := n }] })
      | none => (400, s)
    else (400, s)

/-- resources/player.py PlayerItem.put: 415 on a falsy body, 400 on schema
violation, then deserialize and commit.  A name held by a different row
raises IntegrityError on commit, and the except block answers it with the
same malformed Conflict(409, description=...) call as the create handler:
that call raises TypeError itself, so the uniqueness-violating update is
answered 500, with nothing persisted since the commit already failed.  The
method has no explicit return on success, which flask_restful turns into a
200 response, not 204. -/
def PlayerItem.put (s : Store) (p : Player) (body : Option JObj) : Nat × Store :=
  if falsyBody body then (415, s) else
  match body with
  | none => (415, s)
  | some doc =>
    if validate doc Player.get_schema then
      match jGetStr doc "name" with
      | some n =>
        if s.players.any (fun q => q.name == n && !(q.id == p.id)) then (500, s)
        else (200, { s with players := s.players.map (fun q =>
          if q.id = p.id then { q with name := n } else q) })
      | none => (500, s)
    else (400, s)

/-- resources/map.py MapCollection.post: when the route carried no game
path parameter the handler aborts with 400 before anything else; then 415
on a falsy body and 400 on schema violation; then insert with game_id
taken from the path game.  The body game_id key is never read.  Only
KeyError is caught around the commit: a duplicate map name raises
IntegrityError, which no handler catches, so the framework returns a 500
server error (the store is unchanged, the commit failed). -/
def MapCollection.post (s : Store) (game : Option Game) (body : Option JObj) :
    Nat × Store :=
  match game with
  | none => (400, s)
  | some g =>
    if falsyBody body then (415, s) else
    match body with
    | none => (415, s)
    | some doc =>
      if validate doc Map.get_schema then
        match jGetStr doc "name" with
        | some n =>
          if mapNameTaken s n then (500, s)
          else (201, { s with maps :=
            s.maps ++ [{ id := nextId (s.maps.map Map.id), name := n,
                         game_id := some g.id }] })
        | none => (400, s)
      else (400, s)

/-- resources/map.py MapItem.put: 415 on a falsy body, 400 on schema
violation, deserialize (name only), commit; IntegrityError on a name held
by a different row is caught and turned into Conflict 409.  No explicit
return on success: flask_restful answers 200, not 204. -/
def MapItem.put (s : Store) (mp : Map) (body : Option JObj) : Nat × Store :=
  if falsyBody body then (415, s) else
  match body with
  | none => (415, s)
  | some doc =>
    if validate doc Map.get_schema then
      match jGetStr doc "name" with
      | some n =>
        if s.maps.any (fun q => q.name == n && !(q.id == mp.id)) then (409, s)
        else (200, { s with maps := s.maps.map (fun q =>
          if q.id = mp.id then { q with name := n } else q) })
      | none => (500, s)
    else (400, s)

/-- Read a foreign-key field the way the match handlers do, with
request.json of the key: absent raises KeyError (none); a number or null
is stored as is.  The handlers perform no type check here; a value of any
other type would be handed to the store untyped, a case no claim exercises,
modelled as a cleared reference. -/
def readFK (doc : JObj) (key : String) : Option (Option Int) :=
  match jGet doc key with
  | none => none
  | some (JVal.num n) => some (some n)
  | some _ => some none

/-- resources/match.py MatchCollection.post: 415 on a non-JSON mimetype,
400 on schema violation; then the handler builds the row, parsing
request.json of date with datetime.fromisoformat and reading turns,
game_id, ruleset_id and map_id from the body.  These reads and the parse
happen before the try block whose except KeyError aborts with 400, so a
missing key raises an uncaught KeyError and an unparseable date an
uncaught ValueError: the framework returns a 500 server error with the
store unchanged.  A commit writing a dangling reference raises
IntegrityError, which this handler does not catch either: 500. -/
def MatchCollection.post (s : Store) (body : Option JObj) : Nat × Store :=
  match body with
  | none => (415, s)
  | some doc =>
    if validate doc Match.get_schema then
      match (jGetStr doc "date").bind fromisoformat, jGetNum doc "turns",
            readFK doc "game_id", readFK doc "ruleset_id", readFK doc "map_id" with
      | some d, some t, some g, some r, some mp =>
        if matchFKsOk s g r mp then
          (201, { s with match_rows :=
            s.match_rows ++ [{ id := nextId (s.match_rows.map Match.id),
                               date := d, turns := t,
                               game_id := g, ruleset_id := r, map_id := mp }] })
        else (500, s)
      | _, _, _, _, _ => (500, s)
    else (400, s)

/-- resources/match.py MatchItem.put: 415 on a non-JSON mimetype, 400 on
schema violation; then the handler assigns date (through
datetime.fromisoformat), turns, game_id, ruleset_id and map_id from the
body with no KeyError or ValueError handler, so a missing key or an
unparseable date gives a 500 server error.  The commit is wrapped in
except IntegrityError, which rolls back and raises Conflict(409) - a
well-formed call in match.py, where Conflict is imported and 409 binds to
the description parameter alone - so a dangling reference is answered 409
with the store unchanged.  On success it returns 204. -/
def MatchItem.put (s : Store) (m : Match) (body : Option JObj) : Nat × Store :=
  match body with
  | none => (415, s)
  | some doc =>
    if validate doc Match.get_schema then
      match (jGetStr doc "date").bind fromisoformat, jGetNum doc "turns",
            readFK doc "game_id", readFK doc "ruleset_id", readFK doc "map_id" with
      | some d, some t, some g, some r, some mp =>
        if matchFKsOk s g r mp then
          (204, { s with match_rows := s.match_rows.map (fun x =>
            if x.id = m.id then
              { x with date := d, turns := t,
                       game_id := g, ruleset_id := r, map_id := mp }
            else x) })
        else (409, s)
      | _, _, _, _, _ => (500, s)
    else (400, s)

/-- Modelled from the spec: the Team collection-create handler.  The file
resources/team.py is referenced by api.py but is not under src/; section
4.4 and section 8 of the spec give it the same contract as the player
handler: validate then insert returning 201, and a duplicate unique name
yields Conflict 409 with the store unchanged. -/
def TeamCollection.post (s : Store) (body : Option JObj) : Nat × Store :=
  if falsyBody body then (415, s) else
  match body with
  | none => (415, s)
  | some doc =>
    if validate doc Team.get_schema then
      match jGetStr doc "name" with
      | some n =>
        if teamNameTaken s n then (409, s)
        else (201, { s with teams :=
          s.teams ++ [{ id := nextId (s.teams.map Team.id), name := n }] })
      | none => (400, s)
    else (400, s)

/-- Modelled from the spec: the Game collection-create handler.  The file
resources/game.py is referenced by api.py but is not under src/; section
4.4 and section 8 of the spec give it the same contract as the player
handler: validate then insert returning 201, and a duplicate unique name
yields Conflict 409 with the store unchanged. -/
def GameCollection.post (s : Store) (body : Option JObj) : Nat × Store :=
  if falsyBody body then (415, s) else
  match body with
  | none => (415, s)
  | some doc =>
    if validate doc Game.get_schema then
      match jGetStr doc "name" with
      | some n =>
        if gameNameTaken s n then (409, s)
        else (201, { s with games :=
          s.games ++ [{ id := nextId (s.games.map Game.id), name := n }] })
      | none => (400, s)
    else (400, s)

/-! ## Canonical paths (api.py) and profile constants

api.py registers, under the /api prefix: /match/ for MatchCollection and
/match/<match>/ for MatchItem, where the converter resolves a match by its
numeric id (the test file addresses /api/match/1/).  The result routes that
resources/match.py builds hrefs for (api.playerresultitem and friends) are
not registered in the api.py under src/; they are modelled as match-scoped
paths consistent with url_for receiving both the match and the result row.
The constants module (LINK_RELATIONS_URL, MATCH_PROFILE) is not under src/
either; the profile strings are modelled from the spec as opaque URIs. -/

/-- Canonical path of the match collection. -/
def matchCollectionPath : String := "/api/match/"

/-- Canonical path of a match item, by id. -/
def matchItemPath (mid : Int) : String := "/api/match/" ++ toString mid ++ "/"

/-- Canonical path of a game item, by id; empty when the reference is
absent (models.py declares no game relationship on Match, so the source
attribute access this href is built from has no authoritative value). -/
def gameItemPath : Option Int → String
  | some gid => "/api/game/" ++ toString gid ++ "/"
  | none => ""

/-- Modelled path of one player-result row of a match. -/
def playerResultItemPath (mid rid : Int) : String :=
  "/api/match/" ++ toString mid ++ "/playerresult/" ++ toString rid ++ "/"

/-- Modelled path of the player-result collection of a match. -/
def playerResultCollectionPath (mid : Int) : String :=
  "/api/match/" ++ toString mid ++ "/playerresult/"

/-- Modelled path of one team-result row of a match. -/
def teamResultItemPath (mid rid : Int) : String :=
  "/api/match/" ++ toString mid ++ "/teamresult/" ++ toString rid ++ "/"

/-- Modelled path of the team-result collection of a match. -/
def teamResultCollectionPath (mid : Int) : String :=
  "/api/match/" ++ toString mid ++ "/teamresult/"

/-- Modelled from the spec: the namespace profile URI bound to the BGT
prefix (constants.py is not under src/). -/
def LINK_RELATIONS_URL : String := "/boardgametracker/link-relations/"

/-- Modelled from the spec: the match profile URI (constants.py is not
under src/). -/
def MATCH_PROFILE : String := "/profiles/match/"

/-! ## Hypermedia documents

Modelled from the spec: the Hypermedia Builder (BGTBuilder,
boardgametracker/utils.py) is not under src/.  Section 4.3 describes its
output as a document holding the seeded scalar fields, a namespaces map, a
controls map from control name to a descriptor carrying a target URI and an
HTTP method (plus an encoding and an optional schema, which no claim
examines and which are omitted here), and nested sub-documents of the same
shape.  Initialization seeds only the fields: controls come solely from the
add-control operations.  The match handlers nest documents exactly one
level deep, so the recursive shape is instantiated with a top document
holding lists of leaf documents under its items, player_results and
team_results keys and a single leaf document under its item key. -/

/-- A Mason control descriptor: target URI and HTTP method. -/
structure Control where
  href : String
  method : String
deriving DecidableEq, Repr

/-- A leaf hypermedia document: seeded fields plus named controls.  A
freshly initialized builder seeded with a serialized entity has these
fields and no controls. -/
structure SubDoc where
  fields : JObj
  controls : List (String × Control)
deriving DecidableEq, Repr

/-- A top-level hypermedia document as the match handlers build it. -/
structure TopDoc where
  fields : JObj
  namespaces : List (String × String)
  controls : List (String × Control)
  items : List SubDoc
  player_results : Option (List SubDoc)
  team_results : Option (List SubDoc)
  item : Option SubDoc
deriving DecidableEq, Repr

/-- Look a control up by name. -/
def ctrlGet : List (String × Control) → String → Option Control
  | [], _ => none
  | (k, c) :: rest, key => if k = key then some c else ctrlGet rest key

/-- Does a leaf document carry a self control? -/
def SubDoc.hasSelf (d : SubDoc) : Bool := (ctrlGet d.controls "self").isSome

/-- The item loop of resources/match.py MatchCollection.get: each stored
match is rendered with match.serialize(long=True) and wrapped in a builder
document with its own self and profile controls.  The serialize call
raises TypeError for every match (no long parameter exists in models.py),
so one nested document per match is produced only if every call succeeds:
the loop fails on the first match it reaches. -/
def buildMatchItems : List Match → Option (List SubDoc)
  | [] => some []
  | m :: rest =>
    match Match.serialize_long m, buildMatchItems rest with
    | some f, some ds =>
      some ({ fields := f,
              controls :=
                [("self", ⟨matchItemPath m.id, "GET"⟩),
                 ("profile", ⟨MATCH_PROFILE, "GET"⟩)] } :: ds)
    | _, _ => none

/-- resources/match.py MatchCollection.get: a Mason body with the BGT
namespace, a self control at the collection path, the navigational
controls the builder helpers add, an add-match control, and one nested
item per stored match.  Rendering each item calls
match.serialize(long=True), which raises TypeError, so on any store with
at least one match the handler crashes (the framework answers 500, no
document is produced), modelled as none; only the degenerate empty store
reaches the response. -/
def MatchCollection.get (s : Store) : Option TopDoc :=
  match buildMatchItems s.match_rows with
  | none => none
  | some items =>
    some
      { fields := [],
        namespaces := [("BGT", LINK_RELATIONS_URL)],
        controls :=
          [("self", ⟨matchCollectionPath, "GET"⟩),
           ("BGT:matches-all", ⟨matchCollectionPath, "GET"⟩),
           ("BGT:players-all", ⟨"/api/player/", "GET"⟩),
           ("BGT:teams-all", ⟨"/api/team/", "GET"⟩),
           ("BGT:games-all", ⟨"/api/game/", "GET"⟩),
           ("BGT:add-match", ⟨matchCollectionPath, "POST"⟩)],
        items := items,
        player_results := none,
        team_results := none,
        item := none }

/-- resources/match.py MatchItem.get: the very first step places
BGTBuilder(match.serialize(long=True)) under the item key of the body, and
that serialize call raises TypeError for every match, so the handler never
reaches the rest of its construction (which would further dereference the
match.player_result and match.team_result relationships and the
PlayerResult/TeamResult names that models.py does not define, and build
hrefs for result endpoints api.py never registers): the framework answers
500 and no document is produced, modelled as none for every store and
match.  The arm behind the failing call records the document the remaining
source lines describe, with the result rows rendered through the
serializers that exist. -/
def MatchItem.get (s : Store) (m : Match) : Option TopDoc :=
  match Match.serialize_long m with
  | none => none
  | some f =>
    some
      { fields := [],
        namespaces := [("BGT", LINK_RELATIONS_URL)],
        controls :=
          [("self", ⟨matchItemPath m.id, "GET"⟩),
           ("profile", ⟨MATCH_PROFILE, "GET"⟩),
           ("edit", ⟨matchItemPath m.id, "PUT"⟩),
           ("BGT:game", ⟨gameItemPath m.game_id, "GET"⟩),
           ("BGT:matches-all", ⟨matchCollectionPath, "GET"⟩),
           ("BGT:add-player-result", ⟨playerResultCollectionPath m.id, "POST"⟩),
           ("BGT:add-team-result", ⟨teamResultCollectionPath m.id, "POST"⟩)],
        items := [],
        player_results := some
          ((s.player_results.filter (fun r => r.match_id == some m.id)).map (fun r =>
            { fields := Player_result.serialize r,
              controls :=
                [("self", ⟨playerResultItemPath m.id r.id, "GET"⟩),
                 ("edit", ⟨playerResultItemPath m.id r.id, "PUT"⟩)] })),
        team_results := some
          ((s.team_results.filter (fun r => r.match_id == some m.id)).map (fun r =>
            { fields := Team_result.serialize r,
              controls :=
                [("self", ⟨teamResultItemPath m.id r.id, "GET"⟩),
                 ("edit", ⟨teamResultItemPath m.id r.id, "PUT"⟩)] })),
        item := some { fields := f, controls := [] } }

/-! ## Concrete sample data

A small store in the shape of the test fixture of tests/resource_test.py
(_populate_db), used to evaluate the handlers at concrete inputs. -/

/-- The first game of the test fixture. -/
def sampleGame : Game := { id := 1, name := "CS:GO" }

/-- The first player of the test fixture. -/
def samplePlayer : Player := { id := 1, name := "Nick" }

/-- The first map of the test fixture. -/
def sampleMap : Map := { id := 1, name := "dust", game_id := some 1 }

/-- The match of the test fixture. -/
def sampleMatch : Match :=
  { id := 1, date := "2022-12-25T00:00:00", turns := 30,
    game_id := some 1, ruleset_id := some 1, map_id := some 1 }

/-- A populated store in the shape of the test fixture. -/
def sampleStore : Store :=
  { players := [samplePlayer, { id := 2, name := "Alice" }],
    teams := [{ id := 1, name := "Foxes" }],
    games := [sampleGame, { id := 2, name := "Battlefield" }],
    maps := [sampleMap, { id := 2, name := "verdun", game_id := some 2 }],
    rulesets := [{ id := 1, name := "competitive", game_id := some 1 }],
    match_rows := [sampleMatch],
    player_results := [{ id := 1, points := 23, match_id := some 1,
                         player_id := some 1, team_id := some 1 }],
    team_results := [{ id := 1, points := 56, order := 2, match_id := some 1,
                       team_id := some 1 }] }

/-- The body the test file posts to the match collection
(_get_match_json in tests/resource_test.py): the map_id key is misspelled
with a leading colon, so the body carries no map_id key, yet the test
expects a 201 response. -/
def testMatchBody : JObj :=
  [("date", JVal.str "2022-12-25"), ("turns", JVal.num 500),
   ("game_id", JVal.num 1), ("ruleset_id", JVal.num 1),
   (":map_id", JVal.num 1)]

/-! ## Theorems -/

/-- C1 (counterexample): the claim says every entity type with a unique
name, Map included, answers a duplicate create with exactly one 201 and
one 409.  On the code, creating the map sauna twice under the same game
gives 201 and then 500: MapCollection.post catches only KeyError, so the
IntegrityError of the duplicate insert is unhandled and becomes a server
error, not a 409 conflict. -/
theorem C1_map_duplicate_counterexample :
    (MapCollection.post sampleStore (some sampleGame)
      (some [("name", JVal.str "sauna")])).1 = 201 ∧
    (MapCollection.post
      (MapCollection.post sampleStore (some sampleGame)
        (some [("name", JVal.str "sauna")])).2
      (some sampleGame) (some [("name", JVal.str "sauna")])).1 = 500 := by
  exact ⟨rfl, rfl⟩

/-- C4: models.py Match.serialize emits exactly the keys name (carrying the
date) and turns, for every match: there is no long mode, and no related
game, map or ruleset name and no result list appears in its output. -/
theorem C4_match_serialize_keys (m : Match) :
    (Match.serialize m).map Prod.fst = ["name", "turns"] := rfl

/-- C5: the serialize / deserialize round trip fails on Match: serialize
emits the date under the key name, while deserialize demands the key date,
so deserializing the serialized sample match raises a missing-key error
(modelled as none) instead of reproducing the entity. -/
theorem C5_match_roundtrip_fails :
    Match.deserialize sampleMatch (Match.serialize sampleMatch) = none := rfl

/-- C6: the only resource responses built through the hypermedia builder
in src are the two match GET handlers, and on the populated test-fixture
store both crash before producing any document: every
match.serialize(long=True) call raises TypeError (models.py Match.serialize
has no long parameter), so the collection handler fails on its first
stored match and the item handler fails on every match.  The framework
answers 500 and no document carrying a self control is ever returned,
although the docstrings of the handlers and the repository test
TestMatchCollection.test_get expect a 200 response with rendered items. -/
theorem C6_match_get_crashes :
    MatchCollection.get sampleStore = none ∧
    MatchItem.get sampleStore sampleMatch = none := ⟨rfl, rfl⟩

/-- C8: posting to the standalone map collection route, where no parent
game path parameter exists, is answered 400 (a client error) with the
store untouched, whatever the body: the handler aborts before any insert
is attempted. -/
theorem C8_map_post_without_game (s : Store) (body : Option JObj) :
    MapCollection.post s none body = (400, s) := rfl

/-- C9: the body the repository test posts to the match collection is
schema-valid (the schema requires only date and turns) but misspells
map_id, and the handler reads map_id from the body outside its KeyError
handler: the create is answered with an unhandled-error 500, not a 201,
and the same body makes the match update answer 500 as well.  The store is
untouched in both cases. -/
theorem C9_match_post_unhandled_keyerror :
    validate testMatchBody Match.get_schema = true ∧
    MatchCollection.post sampleStore (some testMatchBody) = (500, sampleStore) ∧
    MatchItem.put sampleStore sampleMatch (some testMatchBody) = (500, sampleStore) := by
  exact ⟨rfl, rfl, rfl⟩

/-- C2: deleting a Match removes every Player_result and Team_result row
referencing it (the cascade declared on both match_id columns), while
deleting a Game, Ruleset or Map that a Match references keeps the Match
row in the store with the corresponding reference set to absent (the
SET NULL declared on the three Match foreign keys). -/
theorem C2_delete_detach_semantics (s : Store) (mid gid rid mpid : Int)
    (m : Match) (hm : m ∈ s.match_rows) :
    (∀ r ∈ (deleteMatch s mid).player_results, r.match_id ≠ some mid) ∧
    (∀ r ∈ (deleteMatch s mid).team_results, r.match_id ≠ some mid) ∧
    (m.game_id = some gid →
      { m with game_id := none } ∈ (deleteGame s gid).match_rows) ∧
    (m.ruleset_id = some rid →
      { m with ruleset_id := none } ∈ (deleteRuleset s rid).match_rows) ∧
    (m.map_id = some mpid →
      { m with map_id := none } ∈ (deleteMap s mpid).match_rows) := by
  refine ⟨?_, ?_, ?_, ?_, ?_⟩
  · intro r hr
    simp only [deleteMatch, List.mem_filter, Bool.not_eq_eq_eq_not, Bool.not_true,
      beq_eq_false_iff_ne, ne_eq] at hr
    exact hr.2
  · intro r hr
    simp only [deleteMatch, List.mem_filter, Bool.not_eq_eq_eq_not, Bool.not_true,
      beq_eq_false_iff_ne, ne_eq] at hr
    exact hr.2
  · intro h
    have h2 : Match.clearGame gid m = { m with game_id := none } := by
      simp [Match.clearGame, h]
    have h3 := List.mem_map_of_mem (Match.clearGame gid) hm
    rw [h2] at h3
    simpa [deleteGame] using h3
  · intro h
    have h2 : Match.clearRuleset rid m = { m with ruleset_id := none } := by
      simp [Match.clearRuleset, h]
    have h3 := List.mem_map_of_mem (Match.clearRuleset rid) hm
    rw [h2] at h3
    simpa [deleteRuleset] using h3
  · intro h
    have h2 : Match.clearMap mpid m = { m with map_id := none } := by
      simp [Match.clearMap, h]
    have h3 := List.mem_map_of_mem (Match.clearMap mpid) hm
    rw [h2] at h3
    simpa [deleteMap] using h3

/-- Witness for C2 on the sample store: deleting game 1, ruleset 1 and
map 1 each leaves the sample match present with the respective reference
cleared. -/
theorem C2_delete_detach_semantics_witness :
    ({ sampleMatch with game_id := none } ∈ (deleteGame sampleStore 1).match_rows) ∧
    ({ sampleMatch with ruleset_id := none } ∈ (deleteRuleset sampleStore 1).match_rows) ∧
    ({ sampleMatch with map_id := none } ∈ (deleteMap sampleStore 1).match_rows) := by
  have h := C2_delete_detach_semantics sampleStore 1 1 1 1 sampleMatch
    (List.mem_singleton.mpr rfl)
  exact ⟨h.2.2.1 rfl, h.2.2.2.1 rfl, h.2.2.2.2 rfl⟩

/-- C3: a create body that fails schema validation is answered with an
error status (400, or 415 for the empty body, which the handlers test for
falsiness first) and the store is returned unchanged: validation happens
before any store mutation, so no partial state change occurs. -/
theorem C3_invalid_body_leaves_store (s : Store) (g : Game) (doc : JObj)
    (hp : validate doc Player.get_schema = false)
    (hmp : validate doc Map.get_schema = false)
    (hmt : validate doc Match.get_schema = false) :
    ((PlayerCollection.post s (some doc)).2 = s ∧
      ((PlayerCollection.post s (some doc)).1 = 400 ∨
        (PlayerCollection.post s (some doc)).1 = 415)) ∧
    ((MapCollection.post s (some g) (some doc)).2 = s ∧
      ((MapCollection.post s (some g) (some doc)).1 = 400 ∨
        (MapCollection.post s (some g) (some doc)).1 = 415)) ∧
    MatchCollection.post s (some doc) = (400, s) := by
  refine ⟨?_, ?_, ?_⟩
  · cases doc with
    | nil => exact ⟨rfl, Or.inr rfl⟩
    | cons kv rest =>
      have e : PlayerCollection.post s (some (kv :: rest)) =
          if validate (kv :: rest) Player.get_schema then
            (match jGetStr (kv :: rest) "name" with
             | some n =>
               if playerNameTaken s n then (500, s)
               else (201, { s with players := s.players ++
                 [{ id := nextId (s.players.map Player.id), name := n }] })
             | none => (400, s))
          else (400, s) := rfl
      rw [e, hp]
      exact ⟨rfl, Or.inl rfl⟩
  · cases doc with
    | nil => exact ⟨rfl, Or.inr rfl⟩
    | cons kv rest =>
      have e : MapCollection.post s (some g) (some (kv :: rest)) =
          if validate (kv :: rest) Map.get_schema then
            (match jGetStr (kv :: rest) "name" with
             | some n =>
               if mapNameTaken s n then (500, s)
               else (201, { s with maps := s.maps ++
                 [{ id := nextId (s.maps.map Map.id), name := n,
                    game_id := some g.id }] })
             | none => (400, s))
          else (400, s) := rfl
      rw [e, hmp]
      exact ⟨rfl, Or.inl rfl⟩
  · have e : MatchCollection.post s (some doc) =
        if validate doc Match.get_schema then
          (match (jGetStr doc "date").bind fromisoformat, jGetNum doc "turns",
                 readFK doc "game_id", readFK doc "ruleset_id",
                 readFK doc "map_id" with
           | some d, some t, some gk, some rk, some mk =>
             if matchFKsOk s gk rk mk then
               (201, { s with match_rows := s.match_rows ++
                 [{ id := nextId (s.match_rows.map Match.id), date := d, turns := t,
                    game_id := gk, ruleset_id := rk, map_id := mk }] })
             else (500, s)
           | _, _, _, _, _ => (500, s))
        else (400, s) := rfl
    rw [e, hmt]
    simp

/-- Witness for C3: the invalid player body of the test file (a numeric
name) is rejected by all three create handlers with the sample store
unchanged. -/
theorem C3_invalid_body_leaves_store_witness :
    (PlayerCollection.post sampleStore (some [("name", JVal.num 123)])).2 =
      sampleStore ∧
    (MapCollection.post sampleStore (some sampleGame)
      (some [("name", JVal.num 123)])).2 = sampleStore ∧
    MatchCollection.post sampleStore (some [("name", JVal.num 123)]) =
      (400, sampleStore) := by
  have h := C3_invalid_body_leaves_store sampleStore sampleGame
    [("name", JVal.num 123)] rfl rfl rfl
  exact ⟨h.1.1, h.2.1.1, h.2.2⟩

/-- Creating a player with a fresh name succeeds with 201 and appends the
row. -/
theorem playerPost_fresh (s : Store) (n : String)
    (h : playerNameTaken s n = false) :
    PlayerCollection.post s (some [("name", JVal.str n)]) =
      (201, { s with players := s.players ++
        [{ id := nextId (s.players.map Player.id), name := n }] }) := by
  have e : PlayerCollection.post s (some [("name", JVal.str n)]) =
      if playerNameTaken s n then (500, s)
      else (201, { s with players := s.players ++
        [{ id := nextId (s.players.map Player.id), name := n }] }) := rfl
  rw [e, h]
  rfl

/-- Creating a player with a taken name is answered 500 with the store
unchanged: the IntegrityError handler raises through its own malformed
Conflict(409, description=...) call. -/
theorem playerPost_dup (s : Store) (n : String)
    (h : playerNameTaken s n = true) :
    PlayerCollection.post s (some [("name", JVal.str n)]) = (500, s) := by
  have e : PlayerCollection.post s (some [("name", JVal.str n)]) =
      if playerNameTaken s n then (500, s)
      else (201, { s with players := s.players ++
        [{ id := nextId (s.players.map Player.id), name := n }] }) := rfl
  rw [e, h]
  rfl

/-- After appending a player row with name n, the name n is taken. -/
theorem playerNameTaken_insert (s : Store) (n : String) (i : Int) :
    playerNameTaken
      { s with players := s.players ++ [{ id := i, name := n }] } n = true := by
  simp [playerNameTaken, List.any_append]

/-- Creating a team with a fresh name succeeds with 201 and appends the
row (spec-modelled handler). -/
theorem teamPost_fresh (s : Store) (n : String)
    (h : teamNameTaken s n = false) :
    TeamCollection.post s (some [("name", JVal.str n)]) =
      (201, { s with teams := s.teams ++
        [{ id := nextId (s.teams.map Team.id), name := n }] }) := by
  have e : TeamCollection.post s (some [("name", JVal.str n)]) =
      if teamNameTaken s n then (409, s)
      else (201, { s with teams := s.teams ++
        [{ id := nextId (s.teams.map Team.id), name := n }] }) := rfl
  rw [e, h]
  rfl

/-- Creating a team with a taken name conflicts with 409 (spec-modelled
handler). -/
theorem teamPost_dup (s : Store) (n : String)
    (h : teamNameTaken s n = true) :
    TeamCollection.post s (some [("name", JVal.str n)]) = (409, s) := by
  have e : TeamCollection.post s (some [("name", JVal.str n)]) =
      if teamNameTaken s n then (409, s)
      else (201, { s with teams := s.teams ++
        [{ id := nextId (s.teams.map Team.id), name := n }] }) := rfl
  rw [e, h]
  rfl

/-- After appending a team row with name n, the name n is taken. -/
theorem teamNameTaken_insert (s : Store) (n : String) (i : Int) :
    teamNameTaken
      { s with teams := s.teams ++ [{ id := i, name := n }] } n = true := by
  simp [teamNameTaken, List.any_append]

/-- Creating a game with a fresh name succeeds with 201 and appends the
row (spec-modelled handler). -/
theorem gamePost_fresh (s : Store) (n : String)
    (h : gameNameTaken s n = false) :
    GameCollection.post s (some [("name", JVal.str n)]) =
      (201, { s with games := s.games ++
        [{ id := nextId (s.games.map Game.id), name := n }] }) := by
  have e : GameCollection.post s (some [("name", JVal.str n)]) =
      if gameNameTaken s n then (409, s)
      else (201, { s with games := s.games ++
        [{ id := nextId (s.games.map Game.id), name := n }] }) := rfl
  rw [e, h]
  rfl

/-- Creating a game with a taken name conflicts with 409 (spec-modelled
handler). -/
theorem gamePost_dup (s : Store) (n : String)
    (h : gameNameTaken s n = true) :
    GameCollection.post s (some [("name", JVal.str n)]) = (409, s) := by
  have e : GameCollection.post s (some [("name", JVal.str n)]) =
      if gameNameTaken s n then (409, s)
      else (201, { s with games := s.games ++
        [{ id := nextId (s.games.map Game.id), name := n }] }) := rfl
  rw [e, h]
  rfl

/-- After appending a game row with name n, the name n is taken. -/
theorem gameNameTaken_insert (s : Store) (n : String) (i : Int) :
    gameNameTaken
      { s with games := s.games ++ [{ id := i, name := n }] } n = true := by
  simp [gameNameTaken, List.any_append]

/-- Creating a map with a fresh name under a path game succeeds with 201
and appends the row. -/
theorem mapPost_fresh (s : Store) (g : Game) (n : String)
    (h : mapNameTaken s n = false) :
    MapCollection.post s (some g) (some [("name", JVal.str n)]) =
      (201, { s with maps := s.maps ++
        [{ id := nextId (s.maps.map Map.id), name := n,
           game_id := some g.id }] }) := by
  have e : MapCollection.post s (some g) (some [("name", JVal.str n)]) =
      if mapNameTaken s n then (500, s)
      else (201, { s with maps := s.maps ++
        [{ id := nextId (s.maps.map Map.id), name := n,
           game_id := some g.id }] }) := rfl
  rw [e, h]
  rfl

/-- Creating a map with a taken name is an unhandled IntegrityError: the
handler catches only KeyError, so the framework answers 500 and the store
is unchanged. -/
theorem mapPost_dup (s : Store) (g : Game) (n : String)
    (h : mapNameTaken s n = true) :
    MapCollection.post s (some g) (some [("name", JVal.str n)]) = (500, s) := by
  have e : MapCollection.post s (some g) (some [("name", JVal.str n)]) =
      if mapNameTaken s n then (500, s)
      else (201, { s with maps := s.maps ++
        [{ id := nextId (s.maps.map Map.id), name := n,
           game_id := some g.id }] }) := rfl
  rw [e, h]
  rfl

/-- After appending a map row with name n, the name n is taken. -/
theorem mapNameTaken_insert (s : Store) (n : String) (i : Int)
    (gi : Option Int) :
    mapNameTaken
      { s with maps := s.maps ++ [{ id := i, name := n, game_id := gi }] }
      n = true := by
  simp [mapNameTaken, List.any_append]

/-- C1 (amended): creating the same fresh name twice gives one 201 and
then one error answer that leaves the store unchanged; the error is the
claimed 409 conflict only for the spec-modelled Team and Game handlers,
while for the two handlers in src it is a 500 server error: for Player
because the except-IntegrityError block raises TypeError through its own
Conflict(409, description=...) call, and for Map because the handler
catches only KeyError, leaving the IntegrityError unhandled. -/
theorem C1_unique_name_create (s : Store) (g : Game) (pn tn gn mn : String)
    (hp : playerNameTaken s pn = false)
    (ht : teamNameTaken s tn = false)
    (hg : gameNameTaken s gn = false)
    (hmp : mapNameTaken s mn = false) :
    PlayerCollection.post s (some [("name", JVal.str pn)]) =
      (201, { s with players := s.players ++
        [{ id := nextId (s.players.map Player.id), name := pn }] }) ∧
    PlayerCollection.post
        { s with players := s.players ++
          [{ id := nextId (s.players.map Player.id), name := pn }] }
        (some [("name", JVal.str pn)]) =
      (500, { s with players := s.players ++
        [{ id := nextId (s.players.map Player.id), name := pn }] }) ∧
    TeamCollection.post s (some [("name", JVal.str tn)]) =
      (201, { s with teams := s.teams ++
        [{ id := nextId (s.teams.map Team.id), name := tn }] }) ∧
    TeamCollection.post
        { s with teams := s.teams ++
          [{ id := nextId (s.teams.map Team.id), name := tn }] }
        (some [("name", JVal.str tn)]) =
      (409, { s with teams := s.teams ++
        [{ id := nextId (s.teams.map Team.id), name := tn }] }) ∧
    GameCollection.post s (some [("name", JVal.str gn)]) =
      (201, { s with games := s.games ++
        [{ id := nextId (s.games.map Game.id), name := gn }] }) ∧
    GameCollection.post
        { s with games := s.games ++
          [{ id := nextId (s.games.map Game.id), name := gn }] }
        (some [("name", JVal.str gn)]) =
      (409, { s with games := s.games ++
        [{ id := nextId (s.games.map Game.id), name := gn }] }) ∧
    MapCollection.post s (some g) (some [("name", JVal.str mn)]) =
      (201, { s with maps := s.maps ++
        [{ id := nextId (s.maps.map Map.id), name := mn,
           game_id := some g.id }] }) ∧
    MapCollection.post
        { s with maps := s.maps ++
          [{ id := nextId (s.maps.map Map.id), name := mn,
             game_id := some g.id }] }
        (some g) (some [("name", JVal.str mn)]) =
      (500, { s with maps := s.maps ++
        [{ id := nextId (s.maps.map Map.id), name := mn,
           game_id := some g.id }] }) := by
  refine ⟨playerPost_fresh s pn hp, playerPost_dup _ pn (playerNameTaken_insert s pn _),
    teamPost_fresh s tn ht, teamPost_dup _ tn (teamNameTaken_insert s tn _),
    gamePost_fresh s gn hg, gamePost_dup _ gn (gameNameTaken_insert s gn _),
    mapPost_fresh s g mn hmp, mapPost_dup _ g mn (mapNameTaken_insert s mn _ _)⟩

/-- Witness for C1 on the sample store: two player creates named John give
201 then 500, and two map creates named sauna likewise give 201 then
500. -/
theorem C1_unique_name_create_witness :
    PlayerCollection.post sampleStore (some [("name", JVal.str "John")]) =
      (201, { sampleStore with players := sampleStore.players ++
        [{ id := 3, name := "John" }] }) ∧
    PlayerCollection.post
        { sampleStore with players := sampleStore.players ++
          [{ id := 3, name := "John" }] }
        (some [("name", JVal.str "John")]) =
      (500, { sampleStore with players := sampleStore.players ++
        [{ id := 3, name := "John" }] }) ∧
    MapCollection.post sampleStore (some sampleGame)
        (some [("name", JVal.str "sauna")]) =
      (201, { sampleStore with maps := sampleStore.maps ++
        [{ id := 3, name := "sauna", game_id := some 1 }] }) ∧
    MapCollection.post
        { sampleStore with maps := sampleStore.maps ++
          [{ id := 3, name := "sauna", game_id := some 1 }] }
        (some sampleGame) (some [("name", JVal.str "sauna")]) =
      (500, { sampleStore with maps := sampleStore.maps ++
        [{ id := 3, name := "sauna", game_id := some 1 }] }) := by
  have h := C1_unique_name_create sampleStore sampleGame
    "John" "Bears" "Chess" "sauna" rfl rfl rfl rfl
  exact ⟨h.1, h.2.1, h.2.2.2.2.2.2.1, h.2.2.2.2.2.2.2⟩

/-- C10: the map create handler takes the parent game only from the path:
a post on the standalone map collection route is answered 400 with the
store unchanged whatever the body, and a successful create under a path
game stores that game as the map game reference, for every body, so a
game_id key in the body is never read. -/
theorem C10_map_game_from_path (s : Store) (g : Game) (doc : JObj) (n : String)
    (hn : jGetStr doc "name" = some n)
    (hf : falsyBody (some doc) = false)
    (hv : validate doc Map.get_schema = true)
    (ht : mapNameTaken s n = false) :
    (∀ body, MapCollection.post s none body = (400, s)) ∧
    MapCollection.post s (some g) (some doc) =
      (201, { s with maps := s.maps ++
        [{ id := nextId (s.maps.map Map.id), name := n,
           game_id := some g.id }] }) := by
  constructor
  · intro body
    rfl
  · have e : MapCollection.post s (some g) (some doc) =
        if falsyBody (some doc) then (415, s)
        else if validate doc Map.get_schema then
          (match jGetStr doc "name" with
           | some n2 =>
             if mapNameTaken s n2 then (500, s)
             else (201, { s with maps := s.maps ++
               [{ id := nextId (s.maps.map Map.id), name := n2,
                  game_id := some g.id }] })
           | none => (400, s))
        else (400, s) := rfl
    rw [e, hf, hv, hn]
    simp [ht]

/-- Witness for C10 on the sample store: a body whose game_id key names
game 99 still creates the map under path game 1, and any post to the
standalone route is answered 400. -/
theorem C10_map_game_from_path_witness :
    MapCollection.post sampleStore none (some [("name", JVal.str "sauna")]) =
      (400, sampleStore) ∧
    MapCollection.post sampleStore (some sampleGame)
        (some [("name", JVal.str "newmap"), ("game_id", JVal.num 99)]) =
      (201, { sampleStore with maps := sampleStore.maps ++
        [{ id := 3, name := "newmap", game_id := some 1 }] }) := by
  have h := C10_map_game_from_path sampleStore sampleGame
    [("name", JVal.str "newmap"), ("game_id", JVal.num 99)] "newmap"
    rfl rfl rfl rfl
  exact ⟨h.1 _, h.2⟩

end BGT


